import Mathlib

/-!
Shallow embedding of the ewasm-rust-api safe-wrapper layer (src/lib.rs).

The library wraps the raw EEI host interface (the extern block in module
native) in bounds-checked, typed Rust functions.  We model the host as a
structure holding the externally owned buffers (call data, running code,
external account code, return data), the storage map, and the result codes
the host returns for call and create; each Rust wrapper becomes a Lean
function over that structure.  Machine integers are Nat with explicit
reduction modulo 2^32 where the Rust code narrows a usize to u32.  Rust
functions that can panic or return Result are embedded as Option or Except.
-/

namespace Ewasm

/-- Modulus of the 32-bit unsigned integers (u32) used at the raw host
interface; narrowing casts in the source reduce modulo this value. -/
def U32_MOD : Nat := 4294967296

/-- Embedding of the Rust struct Bytes20 (an array of 160 bits, field
bytes of type u8 times 20). -/
structure Bytes20 where
  bytes : List Nat
  hlen : bytes.length = 20

/-- Embedding of the Rust struct Bytes32 (an array of 256 bits). -/
structure Bytes32 where
  bytes : List Nat
  hlen : bytes.length = 32

/-- Embedding of the Rust struct Uint128 (a little-endian unsigned 128-bit
integer stored as 16 bytes). -/
structure Uint128 where
  bytes : List Nat
  hlen : bytes.length = 16

/-- Source alias: type EtherValue = Uint128. -/
abbrev EtherValue := Uint128

/-- Source alias: type Address = Bytes20. -/
abbrev Address := Bytes20

/-- Source alias: type StorageKey = Bytes32. -/
abbrev StorageKey := Bytes32

/-- Source alias: type StorageValue = Bytes32. -/
abbrev StorageValue := Bytes32

/-- Source alias: type Topic = Bytes32. -/
abbrev Topic := Bytes32

/-- Embedding of the Rust enum Error, the error code for EEI copy calls. -/
inductive Error where
  | OutOfBoundsCopy

/-- Embedding of the Rust enum CallResult, describing the result of a call. -/
inductive CallResult where
  | Successful
  | Failure
  | Revert

/-- Embedding of the Rust enum CreateResult.  On success, the data contained
is the address of the newly created contract. -/
inductive CreateResult where
  | Successful (a : Address)
  | Failure
  | Revert

/-- Model of the external host behind the native extern block.  The byte
buffers are the host-owned data sources of the four copy families; the
length invariants record that the host reports each size through a function
returning u32 (ethereum_getCallDataSize, ethereum_getCodeSize,
ethereum_getExternalCodeSize, ethereum_getReturnDataSize), so every
reported size is below 2^32.  The callRet fields give the u32 result code
the host returns from ethereum_call, ethereum_callCode,
ethereum_callDelegate and ethereum_callStatic on the given arguments;
createRet and createAddr give the result code of ethereum_create and the
20-byte address the host writes into the result slot.  The storage field is
the current storage mapping read by ethereum_storageLoad. -/
structure Host where
  callData : List Nat
  code : List Nat
  extCode : Address → List Nat
  returnData : List Nat
  storage : StorageKey → StorageValue
  callRet : Nat → Address → EtherValue → List Nat → Nat
  callCodeRet : Nat → Address → EtherValue → List Nat → Nat
  callDelegateRet : Nat → Address → List Nat → Nat
  callStaticRet : Nat → Address → List Nat → Nat
  createRet : EtherValue → List Nat → Nat
  createAddr : EtherValue → List Nat → Address
  callData_lt : callData.length < U32_MOD
  code_lt : code.length < U32_MOD
  extCode_lt : ∀ a, (extCode a).length < U32_MOD
  returnData_lt : returnData.length < U32_MOD

/-- Modelled from the spec: the host side of a copy call
(ethereum_callDataCopy and its three siblings).  The extern declarations
under src give only the signatures; per the spec the host copies the
requested range of its buffer into the freshly allocated result buffer,
fully populating the requested length whenever the range is in bounds. -/
def hostCopy (buf : List Nat) (offset length : Nat) : List Nat :=
  (buf.drop offset).take length

/-- Embedding of calldata_size: ethereum_getCallDataSize as usize. -/
def calldata_size (h : Host) : Nat :=
  h.callData.length

/-- Embedding of unsafe_calldata_copy: allocates a buffer and asks the host
to copy; the offsets cross the boundary as u32, hence the reductions
modulo 2^32 (the Rust casts from as u32 and length as u32). -/
def unsafe_calldata_copy (h : Host) (from_ length : Nat) : List Nat :=
  hostCopy h.callData (from_ % U32_MOD) (length % U32_MOD)

/-- Embedding of calldata_acquire. -/
def calldata_acquire (h : Host) : List Nat :=
  unsafe_calldata_copy h 0 (calldata_size h)

/-- Embedding of calldata_copy: queries the size, rejects the request when
size less than from or size minus from less than length (usize comparison
and truncated subtraction), otherwise delegates to the unchecked copy. -/
def calldata_copy (h : Host) (from_ length : Nat) : Except Error (List Nat) :=
  let size := calldata_size h
  if size < from_ ∨ size - from_ < length then
    Except.error Error.OutOfBoundsCopy
  else
    Except.ok (unsafe_calldata_copy h from_ length)

/-- Embedding of code_size: ethereum_getCodeSize as usize. -/
def code_size (h : Host) : Nat :=
  h.code.length

/-- Embedding of unsafe_code_copy. -/
def unsafe_code_copy (h : Host) (from_ length : Nat) : List Nat :=
  hostCopy h.code (from_ % U32_MOD) (length % U32_MOD)

/-- Embedding of code_acquire. -/
def code_acquire (h : Host) : List Nat :=
  unsafe_code_copy h 0 (code_size h)

/-- Embedding of code_copy. -/
def code_copy (h : Host) (from_ length : Nat) : Except Error (List Nat) :=
  let size := code_size h
  if size < from_ ∨ size - from_ < length then
    Except.error Error.OutOfBoundsCopy
  else
    Except.ok (unsafe_code_copy h from_ length)

/-- Embedding of external_code_size: ethereum_getExternalCodeSize as usize. -/
def external_code_size (h : Host) (address : Address) : Nat :=
  (h.extCode address).length

/-- Embedding of unsafe_external_code_copy. -/
def unsafe_external_code_copy (h : Host) (address : Address) (from_ length : Nat) : List Nat :=
  hostCopy (h.extCode address) (from_ % U32_MOD) (length % U32_MOD)

/-- Embedding of external_code_acquire. -/
def external_code_acquire (h : Host) (address : Address) : List Nat :=
  unsafe_external_code_copy h address 0 (external_code_size h address)

/-- Embedding of external_code_copy. -/
def external_code_copy (h : Host) (address : Address) (from_ length : Nat) :
    Except Error (List Nat) :=
  let size := external_code_size h address
  if size < from_ ∨ size - from_ < length then
    Except.error Error.OutOfBoundsCopy
  else
    Except.ok (unsafe_external_code_copy h address from_ length)

/-- Embedding of returndata_size: ethereum_getReturnDataSize as usize. -/
def returndata_size (h : Host) : Nat :=
  h.returnData.length

/-- Embedding of unsafe_returndata_copy. -/
def unsafe_returndata_copy (h : Host) (from_ length : Nat) : List Nat :=
  hostCopy h.returnData (from_ % U32_MOD) (length % U32_MOD)

/-- Embedding of returndata_acquire. -/
def returndata_acquire (h : Host) : List Nat :=
  unsafe_returndata_copy h 0 (returndata_size h)

/-- Embedding of returndata_copy. -/
def returndata_copy (h : Host) (from_ length : Nat) : Except Error (List Nat) :=
  let size := returndata_size h
  if size < from_ ∨ size - from_ < length then
    Except.error Error.OutOfBoundsCopy
  else
    Except.ok (unsafe_returndata_copy h from_ length)

/-- Embedding of call_mutable: decodes the host result code with an
exhaustive match; the wildcard arm of the source is a Rust panic (fatal
abort), embedded as none. -/
def call_mutable (h : Host) (gas_limit : Nat) (address : Address) (value : EtherValue)
    (data : List Nat) : Option CallResult :=
  match h.callRet gas_limit address value data with
  | 0 => some CallResult.Successful
  | 1 => some CallResult.Failure
  | 2 => some CallResult.Revert
  | _ => none

/-- Embedding of call_code. -/
def call_code (h : Host) (gas_limit : Nat) (address : Address) (value : EtherValue)
    (data : List Nat) : Option CallResult :=
  match h.callCodeRet gas_limit address value data with
  | 0 => some CallResult.Successful
  | 1 => some CallResult.Failure
  | 2 => some CallResult.Revert
  | _ => none

/-- Embedding of call_delegate (no value parameter). -/
def call_delegate (h : Host) (gas_limit : Nat) (address : Address) (data : List Nat) :
    Option CallResult :=
  match h.callDelegateRet gas_limit address data with
  | 0 => some CallResult.Successful
  | 1 => some CallResult.Failure
  | 2 => some CallResult.Revert
  | _ => none

/-- Embedding of call_static (no value parameter). -/
def call_static (h : Host) (gas_limit : Nat) (address : Address) (data : List Nat) :
    Option CallResult :=
  match h.callStaticRet gas_limit address data with
  | 0 => some CallResult.Successful
  | 1 => some CallResult.Failure
  | 2 => some CallResult.Revert
  | _ => none

/-- Embedding of create: the host writes the new address into the result
slot (createAddr) and returns a code, decoded exhaustively; the wildcard
arm of the source is a Rust panic, embedded as none.  The address is
attached only to the success variant. -/
def create (h : Host) (value : EtherValue) (data : List Nat) : Option CreateResult :=
  match h.createRet value data with
  | 0 => some (CreateResult.Successful (h.createAddr value data))
  | 1 => some CreateResult.Failure
  | 2 => some CreateResult.Revert
  | _ => none

/-- Record of one invocation of the raw ethereum_log call, as issued by the
internal log helper of the source: the data payload, the length and topic
count after their u32 casts, and the four topic pointer arguments, a null
pointer embedded as none and a pointer to a topic as some of the topic. -/
structure LogCall where
  data : List Nat
  length : Nat
  numberOfTopics : Nat
  topic1 : Option Topic
  topic2 : Option Topic
  topic3 : Option Topic
  topic4 : Option Topic

/-- Embedding of the private log helper: forwards the payload and the four
topic pointer arguments to ethereum_log, casting the length and the topic
count to u32. -/
def log (data : List Nat) (topic_count : Nat) (topic1 topic2 topic3 topic4 : Option Topic) :
    LogCall :=
  { data := data
    length := data.length % U32_MOD
    numberOfTopics := topic_count % U32_MOD
    topic1 := topic1
    topic2 := topic2
    topic3 := topic3
    topic4 := topic4 }

/-- Embedding of log0: no topic, four null placeholders. -/
def log0 (data : List Nat) : LogCall :=
  log data 0 none none none none

/-- Embedding of log1. -/
def log1 (data : List Nat) (topic1 : Topic) : LogCall :=
  log data 1 (some topic1) none none none

/-- Embedding of log2. -/
def log2 (data : List Nat) (topic1 topic2 : Topic) : LogCall :=
  log data 2 (some topic1) (some topic2) none none

/-- Embedding of log3. -/
def log3 (data : List Nat) (topic1 topic2 topic3 : Topic) : LogCall :=
  log data 3 (some topic1) (some topic2) (some topic3) none

/-- Embedding of log4. -/
def log4 (data : List Nat) (topic1 topic2 topic3 topic4 : Topic) : LogCall :=
  log data 4 (some topic1) (some topic2) (some topic3) (some topic4)

/-- Embedding of storage_load: reads the storage mapping of the host at the
given key (the host fills the 32-byte result slot). -/
def storage_load (h : Host) (key : StorageKey) : StorageValue :=
  h.storage key

/-- Embedding of storage_store, in state-passing style.  Modelled from the
spec: the body of ethereum_storageStore is host code outside src, and the
spec assumes the host implements the documented interface faithfully, so
storing updates the mapping at exactly the given 32-byte key. -/
def storage_store (h : Host) (key : StorageKey) (value : StorageValue) : Host :=
  { h with storage := fun k => if k.bytes = key.bytes then value else h.storage k }

/-- Final outcome of a terminating host call: the three native calls with
return type never (ethereum_finish, ethereum_revert,
ethereum_selfDestruct) hand control to the host permanently. -/
inductive Termination where
  | Finished (data : List Nat)
  | Reverted (data : List Nat)
  | SelfDestructed (beneficiary : Address)

/-- Embedding of the native ethereum_finish, whose Rust return type is
never: in the Except embedding an ok value would mean control returning to
the caller, and the call only ever produces an error (a termination). -/
def ethereum_finish (data : List Nat) : Except Termination Unit :=
  Except.error (Termination.Finished data)

/-- Embedding of the native ethereum_revert (return type never). -/
def ethereum_revert (data : List Nat) : Except Termination Unit :=
  Except.error (Termination.Reverted data)

/-- Embedding of the native ethereum_selfDestruct (return type never). -/
def ethereum_selfDestruct (beneficiary : Address) : Except Termination Unit :=
  Except.error (Termination.SelfDestructed beneficiary)

/-- Embedding of finish: passes a null pointer and length 0, so the host
receives an empty payload. -/
def finish : Except Termination Unit :=
  ethereum_finish []

/-- Embedding of finish_data. -/
def finish_data (data : List Nat) : Except Termination Unit :=
  ethereum_finish data

/-- Embedding of revert: null pointer and length 0, empty payload. -/
def revert : Except Termination Unit :=
  ethereum_revert []

/-- Embedding of revert_data. -/
def revert_data (data : List Nat) : Except Termination Unit :=
  ethereum_revert data

/-- Embedding of selfdestruct. -/
def selfdestruct (address : Address) : Except Termination Unit :=
  ethereum_selfDestruct address

/-- Concrete 20-byte address (0xAA repeated) used by witnesses. -/
def addrA : Address :=
  ⟨List.replicate 20 170, by simp⟩

/-- Concrete all-zero ether value used by witnesses. -/
def val0 : EtherValue :=
  ⟨List.replicate 16 0, by simp⟩

/-- Concrete all-zero 32-byte word used by witnesses. -/
def word0 : Bytes32 :=
  ⟨List.replicate 32 0, by simp⟩

/-- Concrete 32-byte storage key used by witnesses. -/
def key0 : StorageKey :=
  ⟨List.replicate 32 1, by simp⟩

/-- Concrete 32-byte storage key, distinct from key0, used by witnesses. -/
def key1 : StorageKey :=
  ⟨List.replicate 32 2, by simp⟩

/-- Concrete 32-byte storage value used by witnesses. -/
def val1 : StorageValue :=
  ⟨List.replicate 32 3, by simp⟩

/-- Concrete 32-byte storage value used by witnesses. -/
def val2 : StorageValue :=
  ⟨List.replicate 32 4, by simp⟩

/-- Concrete host used by witnesses and counterexamples: call data of 12
bytes (matching the scenarios of the spec), two bytes of code, one byte of
external code, three bytes of return data; the call result code equals the
gas argument so that every decode branch is reachable, and create reports
the length of the init code as its result code. -/
def sampleHost : Host where
  callData := [0, 1, 2, 3, 4, 5, 6, 7, 8, 9, 10, 11]
  code := [96, 0]
  extCode := fun _ => [254]
  returnData := [1, 2, 3]
  storage := fun _ => word0
  callRet := fun gas _ _ _ => gas
  callCodeRet := fun gas _ _ _ => gas
  callDelegateRet := fun gas _ _ => gas
  callStaticRet := fun gas _ _ => gas
  createRet := fun _ data => data.length
  createAddr := fun _ _ => addrA
  callData_lt := by decide
  code_lt := by decide
  extCode_lt := by intro a; norm_num [U32_MOD]
  returnData_lt := by decide

/-- Unfolding lemma for calldata_copy. -/
theorem calldata_copy_def (h : Host) (from_ length : Nat) :
    calldata_copy h from_ length =
      if calldata_size h < from_ ∨ calldata_size h - from_ < length then
        Except.error Error.OutOfBoundsCopy
      else
        Except.ok (unsafe_calldata_copy h from_ length) :=
  rfl

/-- Unfolding lemma for code_copy. -/
theorem code_copy_def (h : Host) (from_ length : Nat) :
    code_copy h from_ length =
      if code_size h < from_ ∨ code_size h - from_ < length then
        Except.error Error.OutOfBoundsCopy
      else
        Except.ok (unsafe_code_copy h from_ length) :=
  rfl

/-- Unfolding lemma for external_code_copy. -/
theorem external_code_copy_def (h : Host) (address : Address) (from_ length : Nat) :
    external_code_copy h address from_ length =
      if external_code_size h address < from_ ∨
          external_code_size h address - from_ < length then
        Except.error Error.OutOfBoundsCopy
      else
        Except.ok (unsafe_external_code_copy h address from_ length) :=
  rfl

/-- Unfolding lemma for returndata_copy. -/
theorem returndata_copy_def (h : Host) (from_ length : Nat) :
    returndata_copy h from_ length =
      if returndata_size h < from_ ∨ returndata_size h - from_ < length then
        Except.error Error.OutOfBoundsCopy
      else
        Except.ok (unsafe_returndata_copy h from_ length) :=
  rfl

/-- The guard of the checked copies produces the error exactly when, over
the integers, from exceeds the size or size minus from is below length. -/
theorem checked_error_iff (size from_ length : Nat) (v : List Nat) :
    ((if size < from_ ∨ size - from_ < length then
        Except.error Error.OutOfBoundsCopy
      else
        Except.ok v) = (Except.error Error.OutOfBoundsCopy : Except Error (List Nat)) ↔
      ((size : Int) < from_ ∨ (size : Int) - from_ < length)) := by
  by_cases hc : size < from_ ∨ size - from_ < length
  · rw [if_pos hc]
    exact iff_of_true rfl (by omega)
  · rw [if_neg hc]
    constructor
    · intro hco
      exact Except.noConfusion hco
    · intro hint
      exact absurd (show size < from_ ∨ size - from_ < length by omega) hc

/-- The guard of the checked copies lets the request through exactly when,
over the integers, from plus length stays within the size. -/
theorem checked_ok_iff (size from_ length : Nat) (v : List Nat) :
    ((if size < from_ ∨ size - from_ < length then
        Except.error Error.OutOfBoundsCopy
      else
        Except.ok v) = (Except.ok v : Except Error (List Nat)) ↔
      (from_ : Int) + length ≤ size) := by
  by_cases hc : size < from_ ∨ size - from_ < length
  · rw [if_pos hc]
    constructor
    · intro hco
      exact Except.noConfusion hco
    · intro hint
      exact absurd hc (by omega)
  · rw [if_neg hc]
    exact iff_of_true rfl (by omega)

/-- C1: for each of the four checked copy operations (calldata_copy,
code_copy, external_code_copy, returndata_copy), relative to the
host-reported size of the source buffer, the operation returns
Err(OutOfBoundsCopy) exactly when from exceeds the size or size minus from
is less than length computed without unsigned wraparound (stated over the
integers), and otherwise returns Ok of the buffer produced by the
corresponding unchecked copy; in particular from equal to the size with
length 1 fails rather than wrapping. -/
theorem C1_checked_copy_error_characterization (h : Host) (a : Address) (from_ length : Nat) :
    (calldata_copy h from_ length = Except.error Error.OutOfBoundsCopy ↔
      ((calldata_size h : Int) < from_ ∨ (calldata_size h : Int) - from_ < length)) ∧
    (calldata_copy h from_ length = Except.ok (unsafe_calldata_copy h from_ length) ↔
      (from_ : Int) + length ≤ calldata_size h) ∧
    (code_copy h from_ length = Except.error Error.OutOfBoundsCopy ↔
      ((code_size h : Int) < from_ ∨ (code_size h : Int) - from_ < length)) ∧
    (code_copy h from_ length = Except.ok (unsafe_code_copy h from_ length) ↔
      (from_ : Int) + length ≤ code_size h) ∧
    (external_code_copy h a from_ length = Except.error Error.OutOfBoundsCopy ↔
      ((external_code_size h a : Int) < from_ ∨
        (external_code_size h a : Int) - from_ < length)) ∧
    (external_code_copy h a from_ length =
        Except.ok (unsafe_external_code_copy h a from_ length) ↔
      (from_ : Int) + length ≤ external_code_size h a) ∧
    (returndata_copy h from_ length = Except.error Error.OutOfBoundsCopy ↔
      ((returndata_size h : Int) < from_ ∨ (returndata_size h : Int) - from_ < length)) ∧
    (returndata_copy h from_ length = Except.ok (unsafe_returndata_copy h from_ length) ↔
      (from_ : Int) + length ≤ returndata_size h) ∧
    calldata_copy h (calldata_size h) 1 = Except.error Error.OutOfBoundsCopy ∧
    code_copy h (code_size h) 1 = Except.error Error.OutOfBoundsCopy ∧
    external_code_copy h a (external_code_size h a) 1 = Except.error Error.OutOfBoundsCopy ∧
    returndata_copy h (returndata_size h) 1 = Except.error Error.OutOfBoundsCopy := by
  refine ⟨?_, ?_, ?_, ?_, ?_, ?_, ?_, ?_, ?_, ?_, ?_, ?_⟩
  · rw [calldata_copy_def]
    exact checked_error_iff _ _ _ _
  · rw [calldata_copy_def]
    exact checked_ok_iff _ _ _ _
  · rw [code_copy_def]
    exact checked_error_iff _ _ _ _
  · rw [code_copy_def]
    exact checked_ok_iff _ _ _ _
  · rw [external_code_copy_def]
    exact checked_error_iff _ _ _ _
  · rw [external_code_copy_def]
    exact checked_ok_iff _ _ _ _
  · rw [returndata_copy_def]
    exact checked_error_iff _ _ _ _
  · rw [returndata_copy_def]
    exact checked_ok_iff _ _ _ _
  · rw [calldata_copy_def, if_pos (by omega)]
  · rw [code_copy_def, if_pos (by omega)]
  · rw [external_code_copy_def, if_pos (by omega)]
  · rw [returndata_copy_def, if_pos (by omega)]

/-- C3: for every from and length with from plus length within the
host-reported size, each of the four checked copy operations returns Ok of
exactly the buffer of the corresponding unchecked copy at the same
arguments. -/
theorem C3_checked_refines_unchecked (h : Host) (a : Address) (from_ length : Nat) :
    (from_ + length ≤ calldata_size h →
      calldata_copy h from_ length = Except.ok (unsafe_calldata_copy h from_ length)) ∧
    (from_ + length ≤ code_size h →
      code_copy h from_ length = Except.ok (unsafe_code_copy h from_ length)) ∧
    (from_ + length ≤ external_code_size h a →
      external_code_copy h a from_ length =
        Except.ok (unsafe_external_code_copy h a from_ length)) ∧
    (from_ + length ≤ returndata_size h →
      returndata_copy h from_ length = Except.ok (unsafe_returndata_copy h from_ length)) := by
  refine ⟨?_, ?_, ?_, ?_⟩
  · intro hle
    rw [calldata_copy_def, if_neg (by omega)]
  · intro hle
    rw [code_copy_def, if_neg (by omega)]
  · intro hle
    rw [external_code_copy_def, if_neg (by omega)]
  · intro hle
    rw [returndata_copy_def, if_neg (by omega)]

/-- Witness for C3 at the concrete sample host with from 0 and length 1. -/
theorem C3_checked_refines_unchecked_witness :
    calldata_copy sampleHost 0 1 = Except.ok (unsafe_calldata_copy sampleHost 0 1) ∧
    code_copy sampleHost 0 1 = Except.ok (unsafe_code_copy sampleHost 0 1) ∧
    external_code_copy sampleHost addrA 0 1 =
      Except.ok (unsafe_external_code_copy sampleHost addrA 0 1) ∧
    returndata_copy sampleHost 0 1 = Except.ok (unsafe_returndata_copy sampleHost 0 1) :=
  ⟨(C3_checked_refines_unchecked sampleHost addrA 0 1).1 (by decide),
   (C3_checked_refines_unchecked sampleHost addrA 0 1).2.1 (by decide),
   (C3_checked_refines_unchecked sampleHost addrA 0 1).2.2.1 (by norm_num [external_code_size, sampleHost]),
   (C3_checked_refines_unchecked sampleHost addrA 0 1).2.2.2 (by decide)⟩

/-- Length of the buffer written by the host for an in-range copy. -/
theorem hostCopy_length (buf : List Nat) (offset length : Nat)
    (hle : offset + length ≤ buf.length) : (hostCopy buf offset length).length = length := by
  simp only [hostCopy, List.length_take, List.length_drop]
  omega

/-- C5: for each of the four copy families, the acquire operation equals the
checked copy of the range starting at 0 with length the queried size (in
particular it succeeds), and it returns a buffer of exactly the queried
size; in the pure host model repeated size queries trivially agree. -/
theorem C5_acquire_is_full_checked_copy (h : Host) (a : Address) :
    calldata_copy h 0 (calldata_size h) = Except.ok (calldata_acquire h) ∧
    (calldata_acquire h).length = calldata_size h ∧
    code_copy h 0 (code_size h) = Except.ok (code_acquire h) ∧
    (code_acquire h).length = code_size h ∧
    external_code_copy h a 0 (external_code_size h a) =
      Except.ok (external_code_acquire h a) ∧
    (external_code_acquire h a).length = external_code_size h a ∧
    returndata_copy h 0 (returndata_size h) = Except.ok (returndata_acquire h) ∧
    (returndata_acquire h).length = returndata_size h := by
  refine ⟨?_, ?_, ?_, ?_, ?_, ?_, ?_, ?_⟩
  · rw [calldata_copy_def, if_neg (by omega)]
    rfl
  · rw [calldata_acquire, unsafe_calldata_copy, Nat.zero_mod,
      Nat.mod_eq_of_lt (show calldata_size h < U32_MOD from h.callData_lt)]
    exact hostCopy_length _ _ _ (by simp [calldata_size])
  · rw [code_copy_def, if_neg (by omega)]
    rfl
  · rw [code_acquire, unsafe_code_copy, Nat.zero_mod,
      Nat.mod_eq_of_lt (show code_size h < U32_MOD from h.code_lt)]
    exact hostCopy_length _ _ _ (by simp [code_size])
  · rw [external_code_copy_def, if_neg (by omega)]
    rfl
  · rw [external_code_acquire, unsafe_external_code_copy, Nat.zero_mod,
      Nat.mod_eq_of_lt (show external_code_size h a < U32_MOD from h.extCode_lt a)]
    exact hostCopy_length _ _ _ (by simp [external_code_size])
  · rw [returndata_copy_def, if_neg (by omega)]
    rfl
  · rw [returndata_acquire, unsafe_returndata_copy, Nat.zero_mod,
      Nat.mod_eq_of_lt (show returndata_size h < U32_MOD from h.returnData_lt)]
    exact hostCopy_length _ _ _ (by simp [returndata_size])

/-- C6 counterexample: the claim states that a zero-length checked copy
never returns OutOfBoundsCopy for any from, but at the sample host (whose
call data size is 12) the request calldata_copy 13 0 is rejected, because
the guard size less than from fires even for an empty range. -/
theorem C6_zero_length_counterexample :
    calldata_copy sampleHost 13 0 = Except.error Error.OutOfBoundsCopy := by
  rw [calldata_copy_def, if_pos (by norm_num [calldata_size, sampleHost])]

/-- C6 (amended): a zero-length checked copy request succeeds with an empty
buffer exactly for from at most the reported size, including the empty tail
from equal to the size; for from strictly beyond the size it returns
Err(OutOfBoundsCopy), for each of the four copy families. -/
theorem C6_zero_length_requests (h : Host) (a : Address) (from_ : Nat) :
    (from_ ≤ calldata_size h → calldata_copy h from_ 0 = Except.ok []) ∧
    (calldata_size h < from_ →
      calldata_copy h from_ 0 = Except.error Error.OutOfBoundsCopy) ∧
    (from_ ≤ code_size h → code_copy h from_ 0 = Except.ok []) ∧
    (code_size h < from_ → code_copy h from_ 0 = Except.error Error.OutOfBoundsCopy) ∧
    (from_ ≤ external_code_size h a → external_code_copy h a from_ 0 = Except.ok []) ∧
    (external_code_size h a < from_ →
      external_code_copy h a from_ 0 = Except.error Error.OutOfBoundsCopy) ∧
    (from_ ≤ returndata_size h → returndata_copy h from_ 0 = Except.ok []) ∧
    (returndata_size h < from_ →
      returndata_copy h from_ 0 = Except.error Error.OutOfBoundsCopy) := by
  refine ⟨?_, ?_, ?_, ?_, ?_, ?_, ?_, ?_⟩
  · intro hle
    rw [calldata_copy_def, if_neg (by omega)]
    simp [unsafe_calldata_copy, hostCopy]
  · intro hlt
    rw [calldata_copy_def, if_pos (Or.inl hlt)]
  · intro hle
    rw [code_copy_def, if_neg (by omega)]
    simp [unsafe_code_copy, hostCopy]
  · intro hlt
    rw [code_copy_def, if_pos (Or.inl hlt)]
  · intro hle
    rw [external_code_copy_def, if_neg (by omega)]
    simp [unsafe_external_code_copy, hostCopy]
  · intro hlt
    rw [external_code_copy_def, if_pos (Or.inl hlt)]
  · intro hle
    rw [returndata_copy_def, if_neg (by omega)]
    simp [unsafe_returndata_copy, hostCopy]
  · intro hlt
    rw [returndata_copy_def, if_pos (Or.inl hlt)]

/-- Witness for the amended C6 at the sample host: the empty tail at from
equal to the call data size 12 succeeds with an empty buffer, and a
zero-length request beyond the code size 2 is rejected. -/
theorem C6_zero_length_requests_witness :
    calldata_copy sampleHost 12 0 = Except.ok [] ∧
    code_copy sampleHost 5 0 = Except.error Error.OutOfBoundsCopy :=
  ⟨(C6_zero_length_requests sampleHost addrA 12).1 (by decide),
   (C6_zero_length_requests sampleHost addrA 5).2.2.2.1 (by decide)⟩

/-- Decoding characterization for call_mutable. -/
theorem call_mutable_decode (h : Host) (gas_limit : Nat) (address : Address)
    (value : EtherValue) (data : List Nat) :
    (call_mutable h gas_limit address value data = some CallResult.Successful ↔
      h.callRet gas_limit address value data = 0) ∧
    (call_mutable h gas_limit address value data = some CallResult.Failure ↔
      h.callRet gas_limit address value data = 1) ∧
    (call_mutable h gas_limit address value data = some CallResult.Revert ↔
      h.callRet gas_limit address value data = 2) ∧
    (call_mutable h gas_limit address value data = none ↔
      2 < h.callRet gas_limit address value data) := by
  unfold call_mutable
  generalize h.callRet gas_limit address value data = c
  rcases c with _ | _ | _ | c <;> simp

/-- Decoding characterization for call_code. -/
theorem call_code_decode (h : Host) (gas_limit : Nat) (address : Address)
    (value : EtherValue) (data : List Nat) :
    (call_code h gas_limit address value data = some CallResult.Successful ↔
      h.callCodeRet gas_limit address value data = 0) ∧
    (call_code h gas_limit address value data = some CallResult.Failure ↔
      h.callCodeRet gas_limit address value data = 1) ∧
    (call_code h gas_limit address value data = some CallResult.Revert ↔
      h.callCodeRet gas_limit address value data = 2) ∧
    (call_code h gas_limit address value data = none ↔
      2 < h.callCodeRet gas_limit address value data) := by
  unfold call_code
  generalize h.callCodeRet gas_limit address value data = c
  rcases c with _ | _ | _ | c <;> simp

/-- Decoding characterization for call_delegate. -/
theorem call_delegate_decode (h : Host) (gas_limit : Nat) (address : Address)
    (data : List Nat) :
    (call_delegate h gas_limit address data = some CallResult.Successful ↔
      h.callDelegateRet gas_limit address data = 0) ∧
    (call_delegate h gas_limit address data = some CallResult.Failure ↔
      h.callDelegateRet gas_limit address data = 1) ∧
    (call_delegate h gas_limit address data = some CallResult.Revert ↔
      h.callDelegateRet gas_limit address data = 2) ∧
    (call_delegate h gas_limit address data = none ↔
      2 < h.callDelegateRet gas_limit address data) := by
  unfold call_delegate
  generalize h.callDelegateRet gas_limit address data = c
  rcases c with _ | _ | _ | c <;> simp

/-- Decoding characterization for call_static. -/
theorem call_static_decode (h : Host) (gas_limit : Nat) (address : Address)
    (data : List Nat) :
    (call_static h gas_limit address data = some CallResult.Successful ↔
      h.callStaticRet gas_limit address data = 0) ∧
    (call_static h gas_limit address data = some CallResult.Failure ↔
      h.callStaticRet gas_limit address data = 1) ∧
    (call_static h gas_limit address data = some CallResult.Revert ↔
      h.callStaticRet gas_limit address data = 2) ∧
    (call_static h gas_limit address data = none ↔
      2 < h.callStaticRet gas_limit address data) := by
  unfold call_static
  generalize h.callStaticRet gas_limit address data = c
  rcases c with _ | _ | _ | c <;> simp

/-- C2: for every call variant (call_mutable, call_code, call_delegate,
call_static), a host result code of 0 decodes to CallResult.Successful, 1
to CallResult.Failure, 2 to CallResult.Revert, and any other code leads to
the fatal abort (the embedded none), never to one of the three variants. -/
theorem C2_call_result_decoding (h : Host) (gas_limit : Nat) (address : Address)
    (value : EtherValue) (data : List Nat) :
    ((call_mutable h gas_limit address value data = some CallResult.Successful ↔
        h.callRet gas_limit address value data = 0) ∧
      (call_mutable h gas_limit address value data = some CallResult.Failure ↔
        h.callRet gas_limit address value data = 1) ∧
      (call_mutable h gas_limit address value data = some CallResult.Revert ↔
        h.callRet gas_limit address value data = 2) ∧
      (call_mutable h gas_limit address value data = none ↔
        2 < h.callRet gas_limit address value data)) ∧
    ((call_code h gas_limit address value data = some CallResult.Successful ↔
        h.callCodeRet gas_limit address value data = 0) ∧
      (call_code h gas_limit address value data = some CallResult.Failure ↔
        h.callCodeRet gas_limit address value data = 1) ∧
      (call_code h gas_limit address value data = some CallResult.Revert ↔
        h.callCodeRet gas_limit address value data = 2) ∧
      (call_code h gas_limit address value data = none ↔
        2 < h.callCodeRet gas_limit address value data)) ∧
    ((call_delegate h gas_limit address data = some CallResult.Successful ↔
        h.callDelegateRet gas_limit address data = 0) ∧
      (call_delegate h gas_limit address data = some CallResult.Failure ↔
        h.callDelegateRet gas_limit address data = 1) ∧
      (call_delegate h gas_limit address data = some CallResult.Revert ↔
        h.callDelegateRet gas_limit address data = 2) ∧
      (call_delegate h gas_limit address data = none ↔
        2 < h.callDelegateRet gas_limit address data)) ∧
    ((call_static h gas_limit address data = some CallResult.Successful ↔
        h.callStaticRet gas_limit address data = 0) ∧
      (call_static h gas_limit address data = some CallResult.Failure ↔
        h.callStaticRet gas_limit address data = 1) ∧
      (call_static h gas_limit address data = some CallResult.Revert ↔
        h.callStaticRet gas_limit address data = 2) ∧
      (call_static h gas_limit address data = none ↔
        2 < h.callStaticRet gas_limit address data)) :=
  ⟨call_mutable_decode h gas_limit address value data,
   call_code_decode h gas_limit address value data,
   call_delegate_decode h gas_limit address data,
   call_static_decode h gas_limit address data⟩

/-- C4: create decodes host code 0 to CreateResult.Successful carrying
exactly the 20-byte address the host wrote into the output slot, code 1 to
CreateResult.Failure and code 2 to CreateResult.Revert (neither carrying an
address), and any other code leads to the fatal abort (the embedded none);
a success value with address a arises exactly when the code is 0 and a is
the host-written address. -/
theorem C4_create_result_decoding (h : Host) (value : EtherValue) (data : List Nat) :
    (create h value data = some (CreateResult.Successful (h.createAddr value data)) ↔
      h.createRet value data = 0) ∧
    (create h value data = some CreateResult.Failure ↔ h.createRet value data = 1) ∧
    (create h value data = some CreateResult.Revert ↔ h.createRet value data = 2) ∧
    (create h value data = none ↔ 2 < h.createRet value data) ∧
    (∀ a : Address, create h value data = some (CreateResult.Successful a) ↔
      (h.createRet value data = 0 ∧ h.createAddr value data = a)) := by
  unfold create
  generalize h.createRet value data = c
  rcases c with _ | _ | _ | c <;> simp

/-- C7: every termination operation (finish, finish_data, revert,
revert_data, selfdestruct) never returns control to the caller: in the
Except embedding each produces exactly the corresponding error (never an ok
value), and sequencing any continuation after it is absorbed, so no program
state after such a call is reachable. -/
theorem C7_terminators_never_return (data : List Nat) (address : Address) :
    finish = Except.error (Termination.Finished []) ∧
    finish_data data = Except.error (Termination.Finished data) ∧
    revert = Except.error (Termination.Reverted []) ∧
    revert_data data = Except.error (Termination.Reverted data) ∧
    selfdestruct address = Except.error (Termination.SelfDestructed address) ∧
    (∀ k : Unit → Except Termination Unit, finish >>= k = finish) ∧
    (∀ k : Unit → Except Termination Unit, finish_data data >>= k = finish_data data) ∧
    (∀ k : Unit → Except Termination Unit, revert >>= k = revert) ∧
    (∀ k : Unit → Except Termination Unit, revert_data data >>= k = revert_data data) ∧
    (∀ k : Unit → Except Termination Unit, selfdestruct address >>= k = selfdestruct address) :=
  ⟨rfl, rfl, rfl, rfl, rfl,
   fun _ => rfl, fun _ => rfl, fun _ => rfl, fun _ => rfl, fun _ => rfl⟩

/-- C8: within one execution context, storage_load at a key performed right
after storage_store of v at that key returns exactly v, and an intervening
store to a different key does not disturb the value, for every 32-byte key
and value. -/
theorem C8_storage_store_load_roundtrip (h : Host) (key other : StorageKey)
    (v w : StorageValue) :
    storage_load (storage_store h key v) key = v ∧
    (other.bytes ≠ key.bytes →
      storage_load (storage_store (storage_store h key v) other w) key = v) := by
  constructor
  · simp [storage_load, storage_store]
  · intro hne
    simp [storage_load, storage_store, Ne.symm hne]

/-- Witness for C8 at concrete keys and values: key1 differs from key0, and
the value stored at key0 survives a store at key1. -/
theorem C8_storage_store_load_roundtrip_witness :
    storage_load (storage_store sampleHost key0 val1) key0 = val1 ∧
    storage_load (storage_store (storage_store sampleHost key0 val1) key1 val2) key0 = val1 :=
  ⟨(C8_storage_store_load_roundtrip sampleHost key0 key1 val1 val2).1,
   (C8_storage_store_load_roundtrip sampleHost key0 key1 val1 val2).2 (by decide)⟩

/-- C9: for every topic count N from 0 to 4, the public entry point logN
invokes the single underlying log primitive with topic count exactly N, the
first N topic arguments being the supplied (non-null) topics in order and
the remaining 4 - N topic arguments being null placeholders. -/
theorem C9_log_entry_points (data : List Nat) (t1 t2 t3 t4 : Topic) :
    log0 data = LogCall.mk data (data.length % U32_MOD) 0 none none none none ∧
    log1 data t1 = LogCall.mk data (data.length % U32_MOD) 1 (some t1) none none none ∧
    log2 data t1 t2 =
      LogCall.mk data (data.length % U32_MOD) 2 (some t1) (some t2) none none ∧
    log3 data t1 t2 t3 =
      LogCall.mk data (data.length % U32_MOD) 3 (some t1) (some t2) (some t3) none ∧
    log4 data t1 t2 t3 t4 =
      LogCall.mk data (data.length % U32_MOD) 4 (some t1) (some t2) (some t3) (some t4) :=
  ⟨rfl, rfl, rfl, rfl, rfl⟩

/-- C10: whenever a checked copy operation passes its bounds check and
delegates to the unchecked copy (that is, returns Ok), both from and length
are strictly below 2^32, because the host reports sizes as u32 values
widened to usize; hence the narrowing casts of from and length to u32 at
the raw host call are lossless for every delegated request. -/
theorem C10_delegated_casts_lossless (h : Host) (a : Address) (from_ length : Nat)
    (buf : List Nat) :
    (calldata_copy h from_ length = Except.ok buf →
      from_ < U32_MOD ∧ length < U32_MOD ∧
        from_ % U32_MOD = from_ ∧ length % U32_MOD = length) ∧
    (code_copy h from_ length = Except.ok buf →
      from_ < U32_MOD ∧ length < U32_MOD ∧
        from_ % U32_MOD = from_ ∧ length % U32_MOD = length) ∧
    (external_code_copy h a from_ length = Except.ok buf →
      from_ < U32_MOD ∧ length < U32_MOD ∧
        from_ % U32_MOD = from_ ∧ length % U32_MOD = length) ∧
    (returndata_copy h from_ length = Except.ok buf →
      from_ < U32_MOD ∧ length < U32_MOD ∧
        from_ % U32_MOD = from_ ∧ length % U32_MOD = length) := by
  have hcd : calldata_size h < U32_MOD := h.callData_lt
  have hco : code_size h < U32_MOD := h.code_lt
  have hec : external_code_size h a < U32_MOD := h.extCode_lt a
  have hrd : returndata_size h < U32_MOD := h.returnData_lt
  refine ⟨?_, ?_, ?_, ?_⟩
  · intro hok
    rw [calldata_copy_def] at hok
    by_cases hc : calldata_size h < from_ ∨ calldata_size h - from_ < length
    · rw [if_pos hc] at hok
      exact Except.noConfusion hok
    · exact ⟨by omega, by omega, Nat.mod_eq_of_lt (by omega), Nat.mod_eq_of_lt (by omega)⟩
  · intro hok
    rw [code_copy_def] at hok
    by_cases hc : code_size h < from_ ∨ code_size h - from_ < length
    · rw [if_pos hc] at hok
      exact Except.noConfusion hok
    · exact ⟨by omega, by omega, Nat.mod_eq_of_lt (by omega), Nat.mod_eq_of_lt (by omega)⟩
  · intro hok
    rw [external_code_copy_def] at hok
    by_cases hc : external_code_size h a < from_ ∨ external_code_size h a - from_ < length
    · rw [if_pos hc] at hok
      exact Except.noConfusion hok
    · exact ⟨by omega, by omega, Nat.mod_eq_of_lt (by omega), Nat.mod_eq_of_lt (by omega)⟩
  · intro hok
    rw [returndata_copy_def] at hok
    by_cases hc : returndata_size h < from_ ∨ returndata_size h - from_ < length
    · rw [if_pos hc] at hok
      exact Except.noConfusion hok
    · exact ⟨by omega, by omega, Nat.mod_eq_of_lt (by omega), Nat.mod_eq_of_lt (by omega)⟩

/-- Witness for C10 at the sample host: the delegated request at from 10
and length 2 on the 12-byte call data has lossless u32 casts. -/
theorem C10_delegated_casts_lossless_witness :
    10 < U32_MOD ∧ 2 < U32_MOD ∧ 10 % U32_MOD = 10 ∧ 2 % U32_MOD = 2 :=
  (C10_delegated_casts_lossless sampleHost addrA 10 2
    (unsafe_calldata_copy sampleHost 10 2)).1 rfl

end Ewasm
